import Mathlib

/-!
Verification of `dbt_checkpoint/check_script_has_no_table_name.py`.

The file embeds the module shallowly:

* The external SQL grammar collaborator (`sqlfluff.parse` followed by
  `tree.get_table_references()`) is modelled as an abstract function of type
  `Grammar`, mapping a dialect and an SQL text either to a parse error
  (a raised exception) or to the list of table references of the parse tree.
* The pure text helpers (`replace_comments`, `add_space_to_parenthesis`,
  `add_space_to_braces`, `add_space_to_source_ref`) are translated directly,
  including the semantics of Python's `re.sub` on the comment pattern
  `(?<=(\/\*|\{#))((.|[\r\n])+?)(?=(\*+\/|#\}))|[ \t]*--.*`:
  the scanner walks the string left to right, the first alternative deletes
  the lazily-matched body between a block-comment opener (seen through a
  two-character lookbehind) and the nearest closer (seen through a
  lookahead), the second alternative deletes a `--` line comment together
  with the horizontal whitespace before it, up to but excluding the newline.
* `has_table_name` and `main` are translated with their exact control flow;
  `main`'s observable behaviour is recorded in a `RunResult` trace that keeps
  the arguments of every grammar invocation, the violation reports that were
  printed, and the final outcome (a returned status code, or a propagated
  exception).
-/

namespace DbtCheckpoint

set_option linter.unusedVariables false

/-- Equality of `Except` values is decidable when both component types have
decidable equality; used to evaluate run outcomes on concrete inputs. -/
instance {α β : Type} [DecidableEq α] [DecidableEq β] : DecidableEq (Except α β) := fun x y =>
  match x, y with
  | .error a, .error b => decidable_of_iff (a = b) (by simp)
  | .ok a, .ok b => decidable_of_iff (a = b) (by simp)
  | .error _, .ok _ => .isFalse (by simp)
  | .ok _, .error _ => .isFalse (by simp)

/-- The external grammar collaborator: `fun dialect sql => …` returns the
table references that `sqlfluff.parse(sql, config(dialect)).tree` reports, or
a parse error when the grammar cannot parse the text. -/
def Grammar : Type := String → String → Except String (List String)

/-- `slashAfterStars l` holds when `l` begins with zero or more `*` followed
by `/` — the continuation of the closing lookahead `\*+\/` after its first
star. -/
def slashAfterStars : List Char → Bool
  | '/' :: _ => true
  | '*' :: rest => slashAfterStars rest
  | _ => false

/-- The lookahead `(\*+\/|#\})` of `REGEX_COMMENTS`: the list starts with one
or more `*` followed by `/`, or with `#}`. -/
def commentCloseAt : List Char → Bool
  | '*' :: rest => slashAfterStars rest
  | '#' :: '}' :: _ => true
  | _ => false

/-- Search for the smallest position `≥ k` (counted from the content start)
at which the closing lookahead matches; `none` when no closer follows. -/
def splitAtCloseAux : List Char → Nat → Option Nat
  | [], _ => none
  | l@(_ :: rest), k => if commentCloseAt l then some k else splitAtCloseAux rest (k + 1)

/-- Length of the lazy body `((.|[\r\n])+?)` of a block comment starting at
the head of `l`: the smallest `k ≥ 1` such that the closing lookahead matches
at `l.drop k`. -/
def splitAtClose : List Char → Option Nat
  | [] => none
  | _ :: rest => splitAtCloseAux rest 1

/-- Length of a match of the second alternative `[ \t]*--.*` starting at the
head of `l`: optional horizontal whitespace, then `--`, then everything up to
but excluding the next newline. -/
def lineCommentLen (l : List Char) : Option Nat :=
  let m := (l.takeWhile (fun c => c == ' ' || c == '\t')).length
  match l.drop m with
  | '-' :: '-' :: rest => some (m + 2 + (rest.takeWhile (fun c => c != '\n')).length)
  | _ => none

/-- The lookbehind `(?<=(\/\*|\{#))`: the two original characters before the
current scan position are `/*` or `{#`. -/
def lookbehindOk (p2 p1 : Option Char) : Bool :=
  (p2 == some '/' && p1 == some '*') || (p2 == some '{' && p1 == some '#')

/-- Length of the match of `REGEX_COMMENTS` at the current position, if any:
the first alternative (block-comment body) is tried before the second
(line comment), exactly as in the regex. -/
def commentMatchLen (p2 p1 : Option Char) (l : List Char) : Option Nat :=
  if lookbehindOk p2 p1 then
    match splitAtClose l with
    | some k => some k
    | none => lineCommentLen l
  else lineCommentLen l

/-- One left-to-right scan of `re.sub(REGEX_COMMENTS, "", ·)`: at each
position the pattern is tried; a match is deleted and scanning resumes after
it, otherwise the character is kept.  `p2`/`p1` are the two original
characters before the scan position (the lookbehind window).  `fuel` bounds
the recursion; every step consumes at least one character, so any
`fuel ≥ l.length` computes the full scan. -/
def subCommentsAux : Nat → Option Char → Option Char → List Char → List Char
  | 0, _, _, l => l
  | _ + 1, _, _, [] => []
  | fuel + 1, p2, p1, c :: rest =>
    match commentMatchLen p2 p1 (c :: rest) with
    | some k =>
      subCommentsAux fuel
        (if 2 ≤ k then (c :: rest).get? (k - 2) else p1)
        ((c :: rest).get? (k - 1))
        ((c :: rest).drop k)
    | none => c :: subCommentsAux fuel p1 (some c) rest

/-- `replace_comments(sql)` = `re.sub(REGEX_COMMENTS, "", sql)`. -/
def replace_comments (sql : String) : String :=
  String.mk (subCommentsAux sql.data.length none none sql.data)

/-- `add_space_to_parenthesis(sql)` = `re.sub(r"([\(\)])", r" \1 ", sql)`:
every parenthesis is replaced by itself surrounded by single spaces. -/
def add_space_to_parenthesis (sql : String) : String :=
  String.mk (sql.data.foldr
    (fun c acc => if c = '(' ∨ c = ')' then ' ' :: c :: ' ' :: acc else c :: acc) [])

/-- `add_space_to_braces(sql)` = `re.sub(r"([\{\}])", r" \1 ", sql)`:
every brace is replaced by itself surrounded by single spaces. -/
def add_space_to_braces (sql : String) : String :=
  String.mk (sql.data.foldr
    (fun c acc => if c = '{' ∨ c = '}' then ' ' :: c :: ' ' :: acc else c :: acc) [])

/-- Python `str.replace("{{", "{{ ")`: left-to-right, non-overlapping. -/
def padOpenTemplate : List Char → List Char
  | '{' :: '{' :: rest => '{' :: '{' :: ' ' :: padOpenTemplate rest
  | c :: rest => c :: padOpenTemplate rest
  | [] => []

/-- Python `str.replace("}}", " }}")`: left-to-right, non-overlapping. -/
def padCloseTemplate : List Char → List Char
  | '}' :: '}' :: rest => ' ' :: '}' :: '}' :: padCloseTemplate rest
  | c :: rest => c :: padCloseTemplate rest
  | [] => []

/-- `add_space_to_source_ref(sql)` =
`sql.replace("{{", "{{ ").replace("}}", " }}")`. -/
def add_space_to_source_ref (sql : String) : String :=
  String.mk (padCloseTemplate (padOpenTemplate sql.data))

/-- The normalization pipeline as the specification composes the four source
helpers: comment removal, then parenthesis padding, then brace padding, then
template-delimiter padding. -/
def normalize (sql : String) : String :=
  add_space_to_source_ref (add_space_to_braces (add_space_to_parenthesis
    (replace_comments sql)))

/-- `has_table_name(sql, filename, dotless, dialect)`: builds the sqlfluff
config for `dialect`, parses `sql` (an exception from the grammar
propagates), collects the parse tree's table references into a set, and
returns `(status_code, table_names)` with `status_code` still holding its
initial value `0`.  `filename` and `dotless` are accepted but never used by
the body.  In the source, `dotless` defaults to `False` and `dialect` to
`"ansi"`; the model takes both explicitly and callers that rely on a Python
default pass the default value. -/
def has_table_name (g : Grammar) (sql filename : String)
    (dotless : Bool) (dialect : String) :
    Except String (Nat × Finset String) :=
  let status_code : Nat := 0
  match g dialect sql with
  | .error e => .error e
  | .ok refs => .ok (status_code, refs.toFinset)

/-- Observable behaviour of one invocation of `main`:
* `manifestMsg` — the `Unable to load manifest file (…)` line, when printed;
* `parseCalls` — the `(dialect, sql)` argument pairs of every grammar
  invocation, in order;
* `reported` — the `(filename, tables)` pairs of every printed violation
  block, in order;
* `outcome` — `.ok code` when `main` returns `code`, `.error e` when an
  exception `e` propagates out of `main`. -/
structure RunResult where
  manifestMsg : Option String
  parseCalls : List (String × String)
  reported : List (String × Finset String)
  outcome : Except String Nat

/-- The `for filename in args.filenames` loop of `main`, threading the
accumulated `status_code` and recording the trace.  Each file's text is
passed to `has_table_name(sql, filename, args.ignore_dotless_table)` — the
dialect argument is left at its default `"ansi"`.  A raised parse error is
not caught: it stops the loop and propagates.  When the per-file status is
truthy, the violation block is printed and `status_code` is overwritten. -/
def processFiles (g : Grammar) (ignoreDotless : Bool) :
    List (String × String) → Nat →
    List (String × String) × List (String × Finset String) × Except String Nat
  | [], status_code => ([], [], .ok status_code)
  | (filename, sql) :: rest, status_code =>
    match has_table_name g sql filename ignoreDotless "ansi" with
    | .error e => ([("ansi", sql)], [], .error e)
    | .ok (status_code_file, tables) =>
      let status_code' := if status_code_file ≠ 0 then status_code_file else status_code
      let res := processFiles g ignoreDotless rest status_code'
      (("ansi", sql) :: res.1,
       (if status_code_file ≠ 0 then [(filename, tables)] else []) ++ res.2.1,
       res.2.2)

/-- `main(argv)`.  Arguments: the manifest-loading collaborator's result
(`.error e` models a raised `JsonOpenError e`), the `--ignore-dotless-table`
flag, the `--dialect` option value, and the list of
`(filename, file text)` pairs behind `args.filenames`.  When the manifest
fails to load, the message is printed and `1` returned before any file is
processed; otherwise the files are processed in order and the accumulated
`status_code` is returned.  The parsed `dialectArg` is never consulted by
the body, matching the source.  The telemetry call does not affect the
result and is not modelled. -/
def main (g : Grammar) (manifest : Except String Unit)
    (ignoreDotless : Bool) (dialectArg : String)
    (files : List (String × String)) : RunResult :=
  match manifest with
  | .error e =>
    ⟨some ("Unable to load manifest file (" ++ e ++ ")"), [], [], .ok 1⟩
  | .ok _ =>
    let res := processFiles g ignoreDotless files 0
    ⟨none, res.1, res.2.1, res.2.2⟩

/-- The two-character line-comment marker `--`, kept out of string literals. -/
def ddash : String := String.mk ['-', '-']

/-- `containsSeq2 a b l` holds when the characters `a` and `b` occur adjacent,
in that order, somewhere in `l`. -/
def containsSeq2 (a b : Char) : List Char → Bool
  | [] => false
  | [_] => false
  | x :: y :: rest => (x == a && y == b) || containsSeq2 a b (y :: rest)

/-- A grammar that finds no table references in any text and never fails. -/
def gAny : Grammar := fun _ _ => .ok []

/-- A concrete grammar: the text `SELECT * FROM raw.orders` has the single
table reference `raw.orders`; any other text has none. -/
def gOrders : Grammar := fun _ sql =>
  if sql = "SELECT * FROM raw.orders" then .ok ["raw.orders"] else .ok []

/-- A concrete grammar: the malformed text `SELECT * FROM (` raises a parse
error; any other text parses with no table references. -/
def gPartial : Grammar := fun _ sql =>
  if sql = "SELECT * FROM (" then .error "unparsable" else .ok []

/-- A concrete grammar: the text `SELECT * FROM orders` has the single
dotless table reference `orders`; any other text has none. -/
def gDotless : Grammar := fun _ sql =>
  if sql = "SELECT * FROM orders" then .ok ["orders"] else .ok []

/-- When every file in the list parses successfully, the loop of `main`
invokes the grammar once per file with dialect `"ansi"` and the file's raw
text, reports nothing, and returns the accumulator unchanged. -/
lemma processFiles_all_ok (g : Grammar) (d : Bool) :
    ∀ (files : List (String × String)) (status : Nat),
      (∀ p ∈ files, ∃ refs, g "ansi" p.2 = .ok refs) →
      processFiles g d files status = (files.map (fun p => ("ansi", p.2)), [], .ok status)
  | [], status, _ => rfl
  | (fn, sql) :: rest, status, h => by
    obtain ⟨refs, hr⟩ := h (fn, sql) (List.mem_cons_self _ _)
    have ih := processFiles_all_ok g d rest status
      (fun p hp => h p (List.mem_cons_of_mem _ hp))
    simp [processFiles, has_table_name, hr, ih]

/-- When one file raises a parse error and every file before it parses, the
loop of `main` stops at the failing file: the grammar is invoked only on the
earlier files and the failing one, and the error propagates. -/
lemma processFiles_parse_error (g : Grammar) (d : Bool) (fn sql e : String)
    (rest : List (String × String)) (h : g "ansi" sql = .error e) :
    ∀ (pre : List (String × String)) (status : Nat),
      (∀ p ∈ pre, ∃ refs, g "ansi" p.2 = .ok refs) →
      processFiles g d (pre ++ (fn, sql) :: rest) status =
        (pre.map (fun p => ("ansi", p.2)) ++ [("ansi", sql)], [], .error e)
  | [], status, _ => by simp [processFiles, has_table_name, h]
  | (fn', sql') :: pre, status, hpre => by
    obtain ⟨refs, hr⟩ := hpre (fn', sql') (List.mem_cons_self _ _)
    have ih := processFiles_parse_error g d fn sql e rest h pre status
      (fun p hp => hpre p (List.mem_cons_of_mem _ hp))
    simp [processFiles, has_table_name, hr, ih]

/-- C1 (code bug): the claimed equivalence — overall status non-zero iff some
file's bare table set is non-empty or some file failed to parse — fails on the
code: at a file whose table set is the non-empty `{raw.orders}`,
`has_table_name` still returns status `0`, so `main` returns `0` and reports
nothing. -/
theorem C1_bare_tables_yield_status_zero :
    has_table_name gOrders "SELECT * FROM raw.orders" "model.sql" false "ansi"
      = .ok (0, {"raw.orders"}) ∧
    (main gOrders (.ok ()) false "ansi"
        [("model.sql", "SELECT * FROM raw.orders"),
         ("other.sql", "SELECT * FROM raw.orders")]).outcome = .ok 0 ∧
    (main gOrders (.ok ()) false "ansi"
        [("model.sql", "SELECT * FROM raw.orders"),
         ("other.sql", "SELECT * FROM raw.orders")]).reported = [] := by
  refine ⟨by decide, by decide, by decide⟩

/-- C2 (code bug): for the single input `SELECT * FROM raw.orders` the
computed table set is `{raw.orders}` as claimed, but the overall status of
the run is `0`, not non-zero. -/
theorem C2_orders_run_returns_zero :
    has_table_name gOrders "SELECT * FROM raw.orders" "f.sql" false "ansi"
      = .ok (0, {"raw.orders"}) ∧
    (main gOrders (.ok ()) false "ansi"
        [("f.sql", "SELECT * FROM raw.orders")]).outcome = .ok 0 := by
  refine ⟨by decide, by decide⟩

/-- C3 (counterexample): with a batch of two files whose first fails to
parse, the grammar is never invoked on the second file and `main` propagates
the exception instead of returning a non-zero status — the claim that the
failure is local to the file and the rest of the batch is still checked is
false. -/
theorem C3_counterexample :
    (main gPartial (.ok ()) false "ansi"
        [("bad.sql", "SELECT * FROM ("), ("good.sql", "SELECT 1")]).parseCalls
      = [("ansi", "SELECT * FROM (")] ∧
    (main gPartial (.ok ()) false "ansi"
        [("bad.sql", "SELECT * FROM ("), ("good.sql", "SELECT 1")]).outcome
      = .error "unparsable" := by
  refine ⟨by decide, by decide⟩

/-- C3 (amended): a grammar parse failure on one file aborts the run — the
exception propagates out of `main`, the grammar is invoked only on the files
before the failing one and on the failing one itself, and no status code is
returned. -/
theorem C3_amended_parse_error_aborts_run (g : Grammar) (d : Bool)
    (dlg : String) (pre : List (String × String)) (fn sql e : String)
    (rest : List (String × String))
    (hpre : ∀ p ∈ pre, ∃ refs, g "ansi" p.2 = .ok refs)
    (h : g "ansi" sql = .error e) :
    (main g (.ok ()) d dlg (pre ++ (fn, sql) :: rest)).outcome = .error e ∧
    (main g (.ok ()) d dlg (pre ++ (fn, sql) :: rest)).parseCalls
      = pre.map (fun p => ("ansi", p.2)) ++ [("ansi", sql)] := by
  have hp := processFiles_parse_error g d fn sql e rest h pre 0 hpre
  simp [main, hp]

/-- Witness for C3 (amended) at a concrete two-file batch. -/
theorem C3_amended_witness :
    (main gPartial (.ok ()) false "ansi"
        [("good.sql", "SELECT 1"), ("bad.sql", "SELECT * FROM (")]).outcome
      = .error "unparsable" ∧
    (main gPartial (.ok ()) false "ansi"
        [("good.sql", "SELECT 1"), ("bad.sql", "SELECT * FROM (")]).parseCalls
      = [("ansi", "SELECT 1"), ("ansi", "SELECT * FROM (")] := by
  have h := C3_amended_parse_error_aborts_run gPartial false "ansi"
    [("good.sql", "SELECT 1")] "bad.sql" "SELECT * FROM (" "unparsable" []
    (by
      intro p hp
      rw [List.mem_singleton] at hp
      subst hp
      exact ⟨[], by decide⟩)
    (by decide)
  exact ⟨h.1, h.2⟩

/-- C4 (confirmed): when the manifest collaborator fails, `main` prints the
human-readable cause, touches no file, and returns `1`. -/
theorem C4_manifest_failure_is_fatal (g : Grammar) (e : String) (d : Bool)
    (dlg : String) (files : List (String × String)) :
    main g (.error e) d dlg files
      = ⟨some ("Unable to load manifest file (" ++ e ++ ")"), [], [], .ok 1⟩ :=
  rfl

/-- C5 (counterexample): normalization is not idempotent — on the input `(`
a second pass changes the text again. -/
theorem C5_counterexample : normalize (normalize "(") ≠ normalize "(" := by
  decide

/-- C5 (amended): each normalization pass inserts a fresh space on both sides
of every parenthesis and brace, so re-normalizing an already-normalized
string widens the padding instead of leaving the text fixed. -/
theorem C5_amended_normalize_widens :
    normalize "(" = " ( " ∧ normalize (normalize "(") = "  (  " ∧
    normalize "\x7b" = " \x7b " ∧ normalize (normalize "\x7b") = "  \x7b  " := by
  refine ⟨by decide, by decide, by decide, by decide⟩

/-- C6 (counterexample): on the input `/* hi */` — SQL containing a block
comment — the output of comment stripping still contains both block-comment
delimiter sequences, because the pattern deletes only the lazily matched body
between the lookbehind and the lookahead. -/
theorem C6_counterexample :
    containsSeq2 '/' '*' (replace_comments "/* hi */").data = true ∧
    containsSeq2 '*' '/' (replace_comments "/* hi */").data = true := by
  refine ⟨by decide, by decide⟩

/-- C6 (amended): comment stripping deletes the body of a block comment but
keeps its delimiters, and deletes a line comment entirely — marker included —
so no `--` sequence survives in that case. -/
theorem C6_amended_bodies_removed_delimiters_kept :
    replace_comments "/* hi */" = "/**/" ∧
    replace_comments "\x7b# note #\x7d" = "\x7b##\x7d" ∧
    replace_comments ("SELECT 1 " ++ ddash ++ " note") = "SELECT 1" ∧
    containsSeq2 '-' '-'
      (replace_comments ("SELECT 1 " ++ ddash ++ " note")).data = false := by
  refine ⟨by decide, by decide, by decide, by decide⟩

/-- C7 (counterexample): `main` hands the grammar the raw file text, not its
normalization: for the file content `(` the grammar receives `(` although
`normalize "("` differs from it, so no normalizer runs before extraction. -/
theorem C7_counterexample :
    (main gAny (.ok ()) false "ansi" [("m.sql", "(")]).parseCalls
      = [("ansi", "(")] ∧
    normalize "(" ≠ "(" := by
  refine ⟨by decide, by decide⟩

/-- C7 (amended): for every batch in which all files parse, the grammar is
invoked once per file with the file's unmodified raw text (and dialect
`"ansi"`); the normalization helpers are never applied to the text that is
parsed, and no classification stage exists. -/
theorem C7_amended_raw_text_to_grammar (g : Grammar) (d : Bool) (dlg : String)
    (files : List (String × String))
    (h : ∀ p ∈ files, ∃ refs, g "ansi" p.2 = .ok refs) :
    (main g (.ok ()) d dlg files).parseCalls
      = files.map (fun p => ("ansi", p.2)) := by
  simp [main, processFiles_all_ok g d files 0 h]

/-- Witness for C7 (amended) at a concrete one-file batch. -/
theorem C7_amended_witness :
    (main gAny (.ok ()) false "ansi" [("m.sql", "SELECT 1")]).parseCalls
      = [("ansi", "SELECT 1")] :=
  C7_amended_raw_text_to_grammar gAny false "ansi" [("m.sql", "SELECT 1")]
    (fun p hp => ⟨[], rfl⟩)

/-- C8 (code bug): the `--dialect` option is parsed but never forwarded —
invoked with dialect `postgres`, `main` still configures the grammar with the
default `ansi` for the file it checks. -/
theorem C8_dialect_option_not_forwarded :
    (main gAny (.ok ()) false "postgres" [("m.sql", "SELECT 1")]).parseCalls
      = [("ansi", "SELECT 1")] ∧
    ("ansi" : String) ≠ "postgres" := by
  refine ⟨by decide, by decide⟩

/-- C9 (code bug): with the ignore-dotless flag set, a single-part table
reference such as `orders` is not exempted: `has_table_name` ignores the
`dotless` argument, keeps `orders` in the returned set, and behaves exactly
as with the flag unset. -/
theorem C9_dotless_flag_ignored :
    has_table_name gDotless "SELECT * FROM orders" "m.sql" true "ansi"
      = .ok (0, {"orders"}) ∧
    has_table_name gDotless "SELECT * FROM orders" "m.sql" true "ansi"
      = has_table_name gDotless "SELECT * FROM orders" "m.sql" false "ansi" := by
  refine ⟨by decide, by decide⟩

/-- C10 (confirmed): whenever the grammar parses the text, `has_table_name`
returns status `0` paired with the full set of the grammar's table
references, independently of the `dotless` argument — no classification or
filtering happens. -/
theorem C10_full_set_and_status_zero (g : Grammar) (sql fn : String)
    (d1 d2 : Bool) (dialect : String) (refs : List String)
    (h : g dialect sql = .ok refs) :
    has_table_name g sql fn d1 dialect = .ok (0, refs.toFinset) ∧
    has_table_name g sql fn d1 dialect = has_table_name g sql fn d2 dialect := by
  simp [has_table_name, h]

/-- Witness for C10 at a concrete grammar and text. -/
theorem C10_witness :
    has_table_name gOrders "SELECT * FROM raw.orders" "m.sql" true "ansi"
      = .ok (0, (["raw.orders"] : List String).toFinset) ∧
    has_table_name gOrders "SELECT * FROM raw.orders" "m.sql" true "ansi"
      = has_table_name gOrders "SELECT * FROM raw.orders" "m.sql" false "ansi" :=
  C10_full_set_and_status_zero gOrders "SELECT * FROM raw.orders" "m.sql"
    true false "ansi" ["raw.orders"] (by decide)

end DbtCheckpoint

